import Mathlib

/-!
Huixing text-to-image client (`pkg/image/huixing_image_client.go`).

A shallow embedding of the two operations of `HuixingImageClient`:
`GenerateImage` (submit a prompt, receive a task identifier) and
`GetTaskStatus` (poll a task identifier), together with the constructor
`NewHuixingImageClient`.

Modelling conventions.

* A Go result `(*ImageResult, error)` is `Except String ImageResult`: every
  return statement of the source has exactly one of the two non-nil, and an
  error built by `fmt.Errorf` is represented by its message.
* The Go standard library is not part of the repository.  What the client
  calls from it and cannot be computed from the source (`http.NewRequest`,
  `http.Client.Do` with `io.ReadAll`, `url.Values.Encode`, `json.Unmarshal`,
  and the `%v` rendering of an `interface{}` value) is collected in the
  structure `Runtime`, over which every operation is parameterised.
* `int` values are `Int`; no arithmetic is performed on them, only decimal
  rendering (`strconv.Itoa`, `%d`).
* The `fmt.Printf` logging lines write to standard output and do not
  influence any returned value; they are omitted.
-/

namespace image

/-! ## Standard-library values used by the client -/

/-- Nanoseconds in one minute: the constant `time.Minute` of type `time.Duration`. -/
def Minute : Int := 60 * 1000000000

/-- Decimal rendering of an integer, as `strconv.Itoa` and the verb `%d` produce it. -/
def Itoa (i : Int) : String := toString i

/-- The part of `http.Client` the constructor sets: the timeout, a `time.Duration`. -/
structure Client where
  Timeout : Int
deriving DecidableEq, Repr

/-- An outgoing request as `http.NewRequest` receives it: method and URL. -/
structure Request where
  Method : String
  URL : String
deriving DecidableEq, Repr

/-- An HTTP response: the status code and the outcome of `io.ReadAll(resp.Body)`
(the whole body text, or the message of the read error). -/
structure Response where
  StatusCode : Int
  Body : Except String String

/-- The type `url.Values`: a map from key to the values added under it, kept here
as an association list in order of first insertion. -/
abbrev Values := List (String × List String)

/-- The method `url.Values.Add`: append `value` to the values of `key`. -/
def Values.Add : Values → String → String → Values
  | [], key, value => [(key, [value])]
  | (k, vs) :: rest, key, value =>
    if k = key then (k, vs ++ [value]) :: rest
    else (k, vs) :: Values.Add rest key value

/-- Concatenate strings with a separator between consecutive ones. -/
def joinWith (sep : String) : List String → String
  | [] => ""
  | [x] => x
  | x :: y :: rest => x ++ sep ++ joinWith sep (y :: rest)

/-- The `%v` rendering of a `map[string]interface{}`: `map[k1:v1 k2:v2]` with the
entries in ascending key order; `render` is the `%v` rendering of one value. -/
def formatMap {V : Type} (render : V → String) (m : List (String × V)) : String :=
  "map[" ++
    joinWith " "
      ((m.insertionSort (fun a b => a.1.data ≤ b.1.data)).map
        (fun e => e.1 ++ ":" ++ render e.2)) ++
    "]"

/-- The text `needle` occurs in the text `hay` as a contiguous run of characters. -/
def occursIn (needle hay : String) : Prop := List.IsInfix needle.data hay.data

instance (needle hay : String) : Decidable (occursIn needle hay) := by
  unfold occursIn; infer_instance

deriving instance DecidableEq for Except

/-! ## Data model -/

/-- HuixingImageClient: the two endpoint addresses, the ComfyUI service port and
the HTTP client. -/
structure HuixingImageClient where
  GenerateEndpoint : String
  QueryEndpoint : String
  Port : String
  HTTPClient : Client
deriving DecidableEq, Repr

/-- HuixingGenerateResponse: one element of the array the generate endpoint
returns.  `NodeErrors` is the Go map `map[string]interface{}` as its list of
entries (a nil or absent map is the empty list); `V` is the type of the decoded
`interface{}` values. -/
structure HuixingGenerateResponse (V : Type) where
  PromptID : String
  Number : Int
  NodeErrors : List (String × V)

/-- HuixingQueryResponse: one element of the array the query endpoint returns. -/
structure HuixingQueryResponse where
  URLs : List String
  Count : Int
deriving DecidableEq, Repr

/-- Modelled from the spec: the struct `ImageOptions` of package `image`, declared
outside this file; the client reads only its width and height. -/
structure ImageOptions where
  Width : Int
  Height : Int
deriving DecidableEq, Repr

/-- Modelled from the spec: the type `ImageOption` of package `image`, a function
that updates the options in place (`func(*ImageOptions)`), here as state passing. -/
abbrev ImageOption := ImageOptions → ImageOptions

/-- Modelled from the spec: the struct `ImageResult` of package `image`, declared
outside this file, with the four fields the client sets; a field a composite
literal leaves out has Go's zero value. -/
structure ImageResult where
  TaskID : String := ""
  Status : String := ""
  ImageURL : String := ""
  Completed : Bool := false
deriving DecidableEq, Repr

/-- The standard-library operations the client calls, taken as parameters.

* `Encode` is `url.Values.Encode`;
* `NewRequest` is `http.NewRequest` with a nil body;
* `Do` is `http.Client.Do` followed by `io.ReadAll` of the response body;
* `UnmarshalGenerate` and `UnmarshalQuery` are `json.Unmarshal` into a
  `[]HuixingGenerateResponse` and a `[]HuixingQueryResponse`;
* `FormatValue` is the `%v` rendering of a decoded `interface{}` value. -/
structure Runtime (V : Type) where
  Encode : Values → String
  NewRequest : String → String → Except String Request
  Do : Client → Request → Except String Response
  UnmarshalGenerate : String → Except String (List (HuixingGenerateResponse V))
  UnmarshalQuery : String → Except String (List HuixingQueryResponse)
  FormatValue : V → String

/-! ## Operations -/

/-- NewHuixingImageClient: the port defaults to `"8188"`, the timeout is five minutes. -/
def NewHuixingImageClient (generateEndpoint queryEndpoint port : String) :
    HuixingImageClient :=
  let port := if port = "" then "8188" else port
  { GenerateEndpoint := generateEndpoint
    QueryEndpoint := queryEndpoint
    Port := port
    HTTPClient := { Timeout := 5 * Minute } }

/-- The options `GenerateImage` works with: the defaults `Width: 720, Height: 1080`
with every override applied in the order given (the `for _, opt := range opts` loop). -/
def GenerateImage.options (opts : List ImageOption) : ImageOptions :=
  opts.foldl (fun options opt => opt options) { Width := 720, Height := 1080 }

/-- The query parameters `GenerateImage` builds: five `params.Add` calls on an empty
`url.Values`. -/
def GenerateImage.params (c : HuixingImageClient) (prompt : String)
    (opts : List ImageOption) : Values :=
  let options := GenerateImage.options opts
  let params : Values := []
  let params := params.Add "prompt" prompt
  let params := params.Add "width" (Itoa options.Width)
  let params := params.Add "high" (Itoa options.Height)
  let params := params.Add "size" "1"
  let params := params.Add "port" c.Port
  params

/-- The request URL of `GenerateImage`: the endpoint, `?`, the encoded parameters. -/
def GenerateImage.requestURL {V : Type} (rt : Runtime V) (c : HuixingImageClient)
    (prompt : String) (opts : List ImageOption) : String :=
  c.GenerateEndpoint ++ "?" ++ rt.Encode (GenerateImage.params c prompt opts)

/-- GenerateImage: submit a text-to-image task. -/
def GenerateImage {V : Type} (rt : Runtime V) (c : HuixingImageClient) (prompt : String)
    (opts : List ImageOption) : Except String ImageResult :=
  let requestURL := GenerateImage.requestURL rt c prompt opts
  match rt.NewRequest "GET" requestURL with
  | .error err => .error ("create request: " ++ err)
  | .ok req =>
    match rt.Do c.HTTPClient req with
    | .error err => .error ("send request: " ++ err)
    | .ok resp =>
      match resp.Body with
      | .error err => .error ("read response: " ++ err)
      | .ok body =>
        if resp.StatusCode ≠ 200 then
          .error ("API error (status " ++ Itoa resp.StatusCode ++ "): " ++ body)
        else
          match rt.UnmarshalGenerate body with
          | .error err => .error ("parse response: " ++ err)
          | .ok results =>
            match results with
            | [] => .error "empty response from Huixing API"
            | result :: _ =>
              if result.PromptID = "" then
                .error "no prompt_id in response"
              else if result.NodeErrors.length > 0 then
                .error ("node errors in response: " ++
                  formatMap rt.FormatValue result.NodeErrors)
              else
                .ok { TaskID := result.PromptID, Status := "processing", Completed := false }

/-- The query parameters `GetTaskStatus` builds: two `params.Add` calls on an empty
`url.Values`. -/
def GetTaskStatus.params (c : HuixingImageClient) (taskID : String) : Values :=
  let params : Values := []
  let params := params.Add "prompt_id" taskID
  let params := params.Add "port" c.Port
  params

/-- The request URL of `GetTaskStatus`: the endpoint, `?`, the encoded parameters. -/
def GetTaskStatus.requestURL {V : Type} (rt : Runtime V) (c : HuixingImageClient)
    (taskID : String) : String :=
  c.QueryEndpoint ++ "?" ++ rt.Encode (GetTaskStatus.params c taskID)

/-- GetTaskStatus: query the result of a task by its `prompt_id`. -/
def GetTaskStatus {V : Type} (rt : Runtime V) (c : HuixingImageClient) (taskID : String) :
    Except String ImageResult :=
  let requestURL := GetTaskStatus.requestURL rt c taskID
  match rt.NewRequest "GET" requestURL with
  | .error err => .error ("create request: " ++ err)
  | .ok req =>
    match rt.Do c.HTTPClient req with
    | .error err => .error ("send request: " ++ err)
    | .ok resp =>
      match resp.Body with
      | .error err => .error ("read response: " ++ err)
      | .ok body =>
        if resp.StatusCode ≠ 200 then
          .error ("API error (status " ++ Itoa resp.StatusCode ++ "): " ++ body)
        else
          match rt.UnmarshalQuery body with
          | .error err => .error ("parse response: " ++ err)
          | .ok results =>
            match results with
            | [] => .ok { TaskID := taskID, Status := "processing", Completed := false }
            | result :: _ =>
              if h : result.Count = 0 ∨ result.URLs.length = 0 then
                .ok { TaskID := taskID, Status := "processing", Completed := false }
              else
                .ok { TaskID := taskID, Status := "completed",
                      ImageURL := result.URLs.get ⟨0, Nat.pos_of_ne_zero (fun e => h (Or.inr e))⟩,
                      Completed := true }

/-- The request for `url` is created and sent, and is answered with status code
`status` and a body that reads in full as `body`. -/
def Exchange {V : Type} (rt : Runtime V) (c : HuixingImageClient) (url : String)
    (status : Int) (body : String) : Prop :=
  ∃ req resp, rt.NewRequest "GET" url = .ok req ∧ rt.Do c.HTTPClient req = .ok resp ∧
    resp.StatusCode = status ∧ resp.Body = .ok body

/-! ## A canned runtime for concrete runs -/

/-- A runtime in which every request is answered with the status code `status` and
the body `body`, and in which that body decodes as `gen` on the generate endpoint
and as `qry` on the query endpoint; `interface{}` values are strings. -/
def cannedRuntime (status : Int) (body : String)
    (gen : Except String (List (HuixingGenerateResponse String)))
    (qry : Except String (List HuixingQueryResponse)) : Runtime String :=
  { Encode := fun _ => ""
    NewRequest := fun method url => .ok { Method := method, URL := url }
    Do := fun _ _ => .ok { StatusCode := status, Body := .ok body }
    UnmarshalGenerate := fun _ => gen
    UnmarshalQuery := fun _ => qry
    FormatValue := fun v => v }

/-- A client built by the constructor with the default port. -/
def sampleClient : HuixingImageClient :=
  NewHuixingImageClient "http://h/generate" "http://h/query" ""

/-! ## Text occurrence lemmas -/

theorem occursIn_refl (s : String) : occursIn s s := List.infix_refl _

theorem occursIn_append_left {n s : String} (t : String) (h : occursIn n s) :
    occursIn n (s ++ t) := by
  unfold occursIn at *
  rw [String.data_append]
  exact h.trans (List.prefix_append _ _).isInfix

theorem occursIn_append_right {n s : String} (t : String) (h : occursIn n s) :
    occursIn n (t ++ s) := by
  unfold occursIn at *
  rw [String.data_append]
  exact h.trans (List.suffix_append _ _).isInfix

theorem occursIn_joinWith (sep : String) :
    ∀ (l : List String) (x : String), x ∈ l → occursIn x (joinWith sep l)
  | [], x, h => by simp at h
  | [y], x, h => by
    have hx : x = y := by simpa using h
    subst hx
    exact occursIn_refl _
  | y :: z :: rest, x, h => by
    rw [joinWith]
    rcases List.mem_cons.mp h with hx | hx
    · subst hx
      exact occursIn_append_left _ (occursIn_append_left _ (occursIn_refl _))
    · exact occursIn_append_right _ (occursIn_joinWith sep (z :: rest) x hx)

theorem occursIn_formatMap {V : Type} (render : V → String) (m : List (String × V))
    (e : String × V) (he : e ∈ m) :
    occursIn e.1 (formatMap render m) ∧ occursIn (render e.2) (formatMap render m) := by
  have hs : e ∈ m.insertionSort (fun a b => a.1.data ≤ b.1.data) :=
    (List.perm_insertionSort _ m).mem_iff.mpr he
  have hj : occursIn (e.1 ++ ":" ++ render e.2) (joinWith " "
      ((m.insertionSort (fun a b => a.1.data ≤ b.1.data)).map
        (fun e => e.1 ++ ":" ++ render e.2))) :=
    occursIn_joinWith " " _ _ (List.mem_map.mpr ⟨e, hs, rfl⟩)
  have hentry : occursIn (e.1 ++ ":" ++ render e.2) (formatMap render m) := by
    unfold formatMap
    exact occursIn_append_left _ (occursIn_append_right _ hj)
  refine ⟨?_, ?_⟩
  · refine List.IsInfix.trans ?_ hentry
    exact occursIn_append_left _ (occursIn_append_left _ (occursIn_refl _))
  · refine List.IsInfix.trans ?_ hentry
    exact occursIn_append_right _ (occursIn_refl _)

/-! ## Unfolding the two operations along an exchange -/

theorem cannedRuntime_exchange (status : Int) (body : String)
    (gen : Except String (List (HuixingGenerateResponse String)))
    (qry : Except String (List HuixingQueryResponse)) (c : HuixingImageClient)
    (url : String) : Exchange (cannedRuntime status body gen qry) c url status body :=
  ⟨_, _, rfl, rfl, rfl, rfl⟩

theorem GenerateImage_of_exchange {V : Type} {rt : Runtime V} {c : HuixingImageClient}
    {prompt : String} {opts : List ImageOption} {status : Int} {body : String}
    (hx : Exchange rt c (GenerateImage.requestURL rt c prompt opts) status body) :
    GenerateImage rt c prompt opts =
      if status ≠ 200 then
        .error ("API error (status " ++ Itoa status ++ "): " ++ body)
      else
        match rt.UnmarshalGenerate body with
        | .error err => .error ("parse response: " ++ err)
        | .ok [] => .error "empty response from Huixing API"
        | .ok (result :: _) =>
          if result.PromptID = "" then .error "no prompt_id in response"
          else if result.NodeErrors.length > 0 then
            .error ("node errors in response: " ++ formatMap rt.FormatValue result.NodeErrors)
          else .ok { TaskID := result.PromptID, Status := "processing", Completed := false } := by
  obtain ⟨req, resp, hreq, hdo, hst, hb⟩ := hx
  subst hst
  simp only [GenerateImage, hreq, hdo, hb]
  split
  · rfl
  · cases hd : rt.UnmarshalGenerate body with
    | error err => rfl
    | ok results => cases results <;> rfl

theorem GetTaskStatus_of_exchange {V : Type} {rt : Runtime V} {c : HuixingImageClient}
    {taskID : String} {status : Int} {body : String}
    (hx : Exchange rt c (GetTaskStatus.requestURL rt c taskID) status body) :
    GetTaskStatus rt c taskID =
      if status ≠ 200 then
        .error ("API error (status " ++ Itoa status ++ "): " ++ body)
      else
        match rt.UnmarshalQuery body with
        | .error err => .error ("parse response: " ++ err)
        | .ok [] => .ok { TaskID := taskID, Status := "processing", Completed := false }
        | .ok (result :: _) =>
          if result.Count = 0 ∨ result.URLs = [] then
            .ok { TaskID := taskID, Status := "processing", Completed := false }
          else
            .ok { TaskID := taskID, Status := "completed", ImageURL := result.URLs.headD "",
                  Completed := true } := by
  obtain ⟨req, resp, hreq, hdo, hst, hb⟩ := hx
  subst hst
  simp only [GetTaskStatus, hreq, hdo, hb]
  split
  · rfl
  · cases hd : rt.UnmarshalQuery body with
    | error err => rfl
    | ok results =>
      cases results with
      | nil => rfl
      | cons result rest =>
        obtain ⟨urls, count⟩ := result
        cases urls with
        | nil => simp
        | cons u us =>
          by_cases hc : count = 0
          · simp [hc]
          · simp [hc]

/-- Every successful return of `GenerateImage` is a `processing` result. -/
theorem GenerateImage_ok_inv {V : Type} {rt : Runtime V} {c : HuixingImageClient}
    {prompt : String} {opts : List ImageOption} {r : ImageResult}
    (h : GenerateImage rt c prompt opts = .ok r) :
    r.Status = "processing" ∧ r.ImageURL = "" ∧ r.Completed = false ∧ r.TaskID ≠ "" := by
  unfold GenerateImage at h
  simp only at h
  repeat' split at h
  all_goals first
    | (cases h; done)
    | (cases h; simp_all)

/-- Every successful return of `GetTaskStatus` is either the `processing` result or the
`completed` result carrying the first URL of the first decoded element. -/
theorem GetTaskStatus_ok_inv {V : Type} {rt : Runtime V} {c : HuixingImageClient}
    {taskID : String} {r : ImageResult} (h : GetTaskStatus rt c taskID = .ok r) :
    r = { TaskID := taskID, Status := "processing", ImageURL := "", Completed := false } ∨
    ∃ body first rest url urls,
      Exchange rt c (GetTaskStatus.requestURL rt c taskID) 200 body ∧
      rt.UnmarshalQuery body = .ok (first :: rest) ∧ first.Count ≠ 0 ∧
      first.URLs = url :: urls ∧
      r = { TaskID := taskID, Status := "completed", ImageURL := url, Completed := true } := by
  unfold GetTaskStatus at h
  simp only at h
  split at h
  · exact absurd h (by simp)
  · rename_i req hreq
    split at h
    · exact absurd h (by simp)
    · rename_i resp hdo
      split at h
      · exact absurd h (by simp)
      · rename_i body hb
        split at h
        · exact absurd h (by simp)
        · rename_i hst
          have hst200 : resp.StatusCode = 200 := by simpa using hst
          split at h
          · exact absurd h (by simp)
          · rename_i results hdec
            split at h
            · left; cases h; rfl
            · rename_i result rest
              split at h
              · left; cases h; rfl
              · rename_i hg
                right
                obtain ⟨urls, count⟩ := result
                cases urls with
                | nil => exact absurd (Or.inr rfl) hg
                | cons u us =>
                  refine ⟨body, ⟨u :: us, count⟩, rest, u, us,
                    ⟨req, resp, hreq, hdo, hst200, hb⟩, hdec, fun hc => hg (Or.inl hc), rfl, ?_⟩
                  cases h
                  rfl

/-! ## Result invariant -/

/-- C1, as stated, fails: when the query response decodes to one element with count 1
and the single URL `""`, `GetTaskStatus` returns a result with `Completed` true and
`Status` `"completed"` whose `ImageURL` is the empty string. -/
theorem C1_counterexample :
    ∃ r : ImageResult,
      GetTaskStatus (cannedRuntime 200 "reply" (.ok [])
        (.ok [{ URLs := [""], Count := 1 }])) sampleClient "abc123" = .ok r ∧
      r.Completed = true ∧ r.Status = "completed" ∧ ¬ (r.ImageURL ≠ "") :=
  ⟨{ TaskID := "abc123", Status := "completed", ImageURL := "", Completed := true },
    by decide, rfl, rfl, by decide⟩

/-- C1 (amended): for every result `r` returned without error by `GenerateImage` or
`GetTaskStatus`, `Completed` is true exactly when `Status` is `"completed"`; a non-empty
`ImageURL` implies `Completed`; a result of `GenerateImage` has all three conditions
false; and a `Completed` result comes from an HTTP-200 query response whose first
decoded element has a non-empty URL list, the first URL of which is the `ImageURL`
(so `ImageURL` is non-empty exactly when that URL is). -/
theorem C1_result_consistency {V : Type} (rt : Runtime V) (c : HuixingImageClient)
    (r : ImageResult)
    (h : (∃ prompt opts, GenerateImage rt c prompt opts = .ok r) ∨
      (∃ taskID, GetTaskStatus rt c taskID = .ok r)) :
    (r.Completed = true ↔ r.Status = "completed") ∧
    (r.ImageURL ≠ "" → r.Completed = true) ∧
    ((∃ prompt opts, GenerateImage rt c prompt opts = .ok r) →
      r.Completed = false ∧ r.Status ≠ "completed" ∧ r.ImageURL = "") ∧
    (r.Completed = true →
      ∃ taskID body first rest url urls,
        Exchange rt c (GetTaskStatus.requestURL rt c taskID) 200 body ∧
        rt.UnmarshalQuery body = .ok (first :: rest) ∧
        first.URLs = url :: urls ∧ r.ImageURL = url) := by
  have hgen : (∃ prompt opts, GenerateImage rt c prompt opts = .ok r) →
      r.Completed = false ∧ r.Status ≠ "completed" ∧ r.ImageURL = "" := by
    rintro ⟨prompt, opts, hg⟩
    obtain ⟨hs, hu, hc, _⟩ := GenerateImage_ok_inv hg
    exact ⟨hc, by rw [hs]; decide, hu⟩
  rcases h with hg | ⟨taskID, hq⟩
  · obtain ⟨hc, hs, hu⟩ := hgen hg
    refine ⟨?_, ?_, hgen, ?_⟩
    · simp [hc, hs]
    · intro hne; exact absurd hu hne
    · intro ht; rw [hc] at ht; exact absurd ht (by decide)
  · rcases GetTaskStatus_ok_inv hq with hp | ⟨body, first, rest, url, urls, hx, hdec, _, hurls, hr⟩
    · subst hp
      refine ⟨by simp, by simp, hgen, ?_⟩
      intro ht; exact absurd ht (by simp)
    · subst hr
      refine ⟨by simp, fun _ => rfl, hgen, ?_⟩
      intro _
      exact ⟨taskID, body, first, rest, url, urls, hx, hdec, hurls, rfl⟩

/-- C1 (amended), at the query response `[{"urls":["http://x/img.png"],"count":1}]`. -/
theorem C1_result_consistency_witness :
    ∃ r : ImageResult,
      GetTaskStatus (cannedRuntime 200 "reply"
        (.ok []) (.ok [{ URLs := ["http://x/img.png"], Count := 1 }])) sampleClient "abc123" =
          .ok r ∧
      (r.Completed = true ↔ r.Status = "completed") ∧ (r.ImageURL ≠ "" → r.Completed = true) ∧
      r.ImageURL = "http://x/img.png" := by
  refine ⟨{ TaskID := "abc123", Status := "completed", ImageURL := "http://x/img.png",
            Completed := true }, by decide, ?_⟩
  have h := C1_result_consistency
    (cannedRuntime 200 "reply" (.ok [])
        (.ok [{ URLs := ["http://x/img.png"], Count := 1 }])) sampleClient
    { TaskID := "abc123", Status := "completed", ImageURL := "http://x/img.png",
      Completed := true }
    (Or.inr ⟨"abc123", by decide⟩)
  exact ⟨h.1, h.2.1, rfl⟩

/-! ## Status query -/

/-- C2: when the HTTP-200 query response decodes to a non-empty array whose first element
has a non-zero count and a non-empty URL list `url :: urls`, `GetTaskStatus` returns,
without error, the result with `Status` `"completed"`, `Completed` true, the input task
identifier and `ImageURL = url`; the result mentions neither the further URLs `urls` nor
the further elements `rest`. -/
theorem C2_completed_first_url {V : Type} (rt : Runtime V) (c : HuixingImageClient)
    (taskID body : String) (first : HuixingQueryResponse) (rest : List HuixingQueryResponse)
    (url : String) (urls : List String)
    (hx : Exchange rt c (GetTaskStatus.requestURL rt c taskID) 200 body)
    (hdec : rt.UnmarshalQuery body = .ok (first :: rest))
    (hcount : first.Count ≠ 0) (hurls : first.URLs = url :: urls) :
    GetTaskStatus rt c taskID =
      .ok { TaskID := taskID, Status := "completed", ImageURL := url, Completed := true } := by
  rw [GetTaskStatus_of_exchange hx]
  simp [hdec, hcount, hurls]

/-- C2 at the query response
`[{"urls":["http://x/img.png","http://x/img2.png"],"count":2},{"urls":["http://y"],"count":1}]`. -/
theorem C2_completed_first_url_witness :
    GetTaskStatus (cannedRuntime 200 "two elements" (.ok [])
        (.ok [{ URLs := ["http://x/img.png", "http://x/img2.png"], Count := 2 },
              { URLs := ["http://y"], Count := 1 }])) sampleClient "abc123" =
      .ok { TaskID := "abc123", Status := "completed", ImageURL := "http://x/img.png",
            Completed := true } :=
  C2_completed_first_url _ sampleClient "abc123" "two elements"
    { URLs := ["http://x/img.png", "http://x/img2.png"], Count := 2 }
    [{ URLs := ["http://y"], Count := 1 }] "http://x/img.png" ["http://x/img2.png"]
    (cannedRuntime_exchange _ _ _ _ _ _) rfl (by decide) rfl

/-- C3: when the HTTP-200 query response decodes to an empty array, or to an array whose
first element has count zero or an empty URL list, `GetTaskStatus` returns, without
error, the result with `Status` `"processing"`, `Completed` false, an empty `ImageURL`
and the input task identifier. -/
theorem C3_processing_when_not_ready {V : Type} (rt : Runtime V) (c : HuixingImageClient)
    (taskID body : String) (results : List HuixingQueryResponse)
    (hx : Exchange rt c (GetTaskStatus.requestURL rt c taskID) 200 body)
    (hdec : rt.UnmarshalQuery body = .ok results)
    (hres : results = [] ∨
      ∃ first rest, results = first :: rest ∧ (first.Count = 0 ∨ first.URLs = [])) :
    GetTaskStatus rt c taskID =
      .ok { TaskID := taskID, Status := "processing", ImageURL := "", Completed := false } := by
  rw [GetTaskStatus_of_exchange hx]
  rcases hres with he | ⟨first, rest, he, hz⟩
  · subst he
    simp [hdec]
  · subst he
    simp [hdec, hz]

/-- C3 at the query response `[{"urls":["http://x/img.png"],"count":0}]`: a URL list
that is non-empty while the count is zero is not surfaced. -/
theorem C3_processing_when_not_ready_witness :
    GetTaskStatus (cannedRuntime 200 "reply" (.ok [])
        (.ok [{ URLs := ["http://x/img.png"], Count := 0 }])) sampleClient "abc123" =
      .ok { TaskID := "abc123", Status := "processing", ImageURL := "", Completed := false } :=
  C3_processing_when_not_ready _ sampleClient "abc123" _
    [{ URLs := ["http://x/img.png"], Count := 0 }]
    (cannedRuntime_exchange _ _ _ _ _ _) rfl
    (Or.inr ⟨{ URLs := ["http://x/img.png"], Count := 0 }, [], rfl, Or.inl rfl⟩)

/-! ## Submission -/

/-- C4: when the HTTP-200 submission response decodes to a non-empty array whose first
element has a non-empty prompt identifier and an empty node-error mapping,
`GenerateImage` returns, without error, the result with `TaskID` that identifier,
`Status` `"processing"`, `Completed` false and an empty `ImageURL`; and no successful
return of `GenerateImage`, on any input, has `Status` `"completed"`. -/
theorem C4_submit_success {V : Type} (rt : Runtime V) (c : HuixingImageClient)
    (prompt : String) (opts : List ImageOption) (body : String)
    (first : HuixingGenerateResponse V) (rest : List (HuixingGenerateResponse V))
    (hx : Exchange rt c (GenerateImage.requestURL rt c prompt opts) 200 body)
    (hdec : rt.UnmarshalGenerate body = .ok (first :: rest))
    (hid : first.PromptID ≠ "") (hnode : first.NodeErrors = []) :
    GenerateImage rt c prompt opts =
      .ok { TaskID := first.PromptID, Status := "processing", ImageURL := "",
            Completed := false } ∧
    ∀ (rt2 : Runtime V) (c2 : HuixingImageClient) (prompt2 : String)
      (opts2 : List ImageOption) (r : ImageResult),
      GenerateImage rt2 c2 prompt2 opts2 = .ok r →
        r.Status = "processing" ∧ r.Status ≠ "completed" := by
  refine ⟨?_, ?_⟩
  · rw [GenerateImage_of_exchange hx]
    simp [hdec, hid, hnode]
  · intro rt2 c2 prompt2 opts2 r hr
    obtain ⟨hs, _⟩ := GenerateImage_ok_inv hr
    exact ⟨hs, by rw [hs]; decide⟩

/-- C4 at the submission response `[{"prompt_id":"abc123","number":1,"node_errors":{}}]`. -/
theorem C4_submit_success_witness :
    GenerateImage (cannedRuntime 200 "reply"
        (.ok [{ PromptID := "abc123", Number := 1, NodeErrors := [] }]) (.ok []))
        sampleClient "a cat" [] =
      .ok { TaskID := "abc123", Status := "processing", ImageURL := "", Completed := false } :=
  (C4_submit_success _ sampleClient "a cat" [] _
    { PromptID := "abc123", Number := 1, NodeErrors := [] } []
    (cannedRuntime_exchange _ _ _ _ _ _) rfl (by decide) rfl).1

/-- C5, as stated, fails: when the first element has the non-empty node-error mapping
`{"node1":"bad input"}` and an empty prompt identifier, `GenerateImage` fails with the
missing-identifier error, whose message contains neither `node errors in response`
nor the node name. -/
theorem C5_counterexample :
    GenerateImage (cannedRuntime 200 "reply"
        (.ok [{ PromptID := "", Number := 0, NodeErrors := [("node1", "bad input")] }])
        (.ok [])) sampleClient "a cat" [] = .error "no prompt_id in response" ∧
    ¬ occursIn "node errors in response" "no prompt_id in response" ∧
    ¬ occursIn "node1" "no prompt_id in response" := by
  decide

/-- C5 (amended): when the HTTP-200 submission response decodes to a non-empty array whose
first element has a non-empty prompt identifier and a non-empty node-error mapping,
`GenerateImage` fails with the error `node errors in response: ` followed by the `%v`
rendering of the mapping, and every node name of the mapping, and the rendering of every
error detail, occurs in that message. -/
theorem C5_node_errors {V : Type} (rt : Runtime V) (c : HuixingImageClient)
    (prompt : String) (opts : List ImageOption) (body : String)
    (first : HuixingGenerateResponse V) (rest : List (HuixingGenerateResponse V))
    (hx : Exchange rt c (GenerateImage.requestURL rt c prompt opts) 200 body)
    (hdec : rt.UnmarshalGenerate body = .ok (first :: rest))
    (hid : first.PromptID ≠ "") (hnode : first.NodeErrors ≠ []) :
    GenerateImage rt c prompt opts =
      .error ("node errors in response: " ++ formatMap rt.FormatValue first.NodeErrors) ∧
    ∀ e ∈ first.NodeErrors,
      occursIn e.1
        ("node errors in response: " ++ formatMap rt.FormatValue first.NodeErrors) ∧
      occursIn (rt.FormatValue e.2)
        ("node errors in response: " ++ formatMap rt.FormatValue first.NodeErrors) := by
  refine ⟨?_, ?_⟩
  · rw [GenerateImage_of_exchange hx]
    have hlen : first.NodeErrors.length > 0 := List.length_pos.mpr hnode
    simp [hdec, hid, hlen]
  · intro e he
    obtain ⟨hk, hv⟩ := occursIn_formatMap rt.FormatValue first.NodeErrors e he
    exact ⟨occursIn_append_right _ hk, occursIn_append_right _ hv⟩

/-- C5 (amended) at the submission response
`[{"prompt_id":"x","node_errors":{"node1":"bad input"}}]`. -/
theorem C5_node_errors_witness :
    GenerateImage (cannedRuntime 200 "reply"
        (.ok [{ PromptID := "x", Number := 0, NodeErrors := [("node1", "bad input")] }])
        (.ok [])) sampleClient "a cat" [] =
      .error ("node errors in response: " ++
        formatMap (fun v => v) [("node1", "bad input")]) ∧
    ("node errors in response: " ++ formatMap (fun v => v) [("node1", "bad input")] =
      "node errors in response: map[node1:bad input]") ∧
    occursIn "node1"
      ("node errors in response: " ++ formatMap (fun v => v) [("node1", "bad input")]) := by
  have h := C5_node_errors
    (cannedRuntime 200 "reply"
        (.ok [{ PromptID := "x", Number := 0, NodeErrors := [("node1", "bad input")] }])
        (.ok [])) sampleClient "a cat" [] _
    { PromptID := "x", Number := 0, NodeErrors := [("node1", "bad input")] } []
    (cannedRuntime_exchange _ _ _ _ _ _) rfl (by decide) (by decide)
  exact ⟨h.1, by decide, (h.2 ("node1", "bad input") (by simp)).1⟩

/-- C6: when the HTTP-200 submission response decodes to an array, `GenerateImage` returns
no result and the error `empty response from Huixing API` if the array has no element,
and no result and the error `no prompt_id in response` if the array is non-empty and its
first element has the empty prompt identifier; on the empty array it returns no result
at all, whereas `GetTaskStatus` answers the empty array with a `processing` result. -/
theorem C6_empty_and_missing_identifier {V : Type} (rt : Runtime V) (c : HuixingImageClient)
    (prompt : String) (opts : List ImageOption) (body : String)
    (results : List (HuixingGenerateResponse V))
    (hx : Exchange rt c (GenerateImage.requestURL rt c prompt opts) 200 body)
    (hdec : rt.UnmarshalGenerate body = .ok results) :
    (results = [] →
      GenerateImage rt c prompt opts = .error "empty response from Huixing API" ∧
      ∀ r, GenerateImage rt c prompt opts ≠ .ok r) ∧
    (∀ first rest, results = first :: rest → first.PromptID = "" →
      GenerateImage rt c prompt opts = .error "no prompt_id in response") := by
  rw [GenerateImage_of_exchange hx]
  refine ⟨?_, ?_⟩
  · intro he
    subst he
    simp [hdec]
  · intro first rest he hid
    subst he
    simp [hdec, hid]

/-- C6 at the submission response `[]`. -/
theorem C6_empty_and_missing_identifier_witness :
    GenerateImage (cannedRuntime 200 "[]" (.ok []) (.ok [])) sampleClient "a cat" [] =
      .error "empty response from Huixing API" :=
  ((C6_empty_and_missing_identifier (cannedRuntime 200 "[]" (.ok []) (.ok []))
    sampleClient "a cat" [] "[]" [] (cannedRuntime_exchange _ _ _ _ _ _) rfl).1 rfl).1

/-! ## Failure modes shared by both operations -/

/-- C7: when the response has a status code other than 200, whatever the body and
whatever it would decode to, `GenerateImage` and `GetTaskStatus` return no result and the
error `API error (status <code>): <body>`, a message in which the decimal status code
and the raw body text occur. -/
theorem C7_non_200_is_api_error {V : Type} (rt : Runtime V) (c : HuixingImageClient)
    (status : Int) (body : String) (hstatus : status ≠ 200) :
    (∀ prompt opts, Exchange rt c (GenerateImage.requestURL rt c prompt opts) status body →
      GenerateImage rt c prompt opts =
        .error ("API error (status " ++ Itoa status ++ "): " ++ body)) ∧
    (∀ taskID, Exchange rt c (GetTaskStatus.requestURL rt c taskID) status body →
      GetTaskStatus rt c taskID =
        .error ("API error (status " ++ Itoa status ++ "): " ++ body)) ∧
    occursIn (Itoa status) ("API error (status " ++ Itoa status ++ "): " ++ body) ∧
    occursIn body ("API error (status " ++ Itoa status ++ "): " ++ body) := by
  refine ⟨?_, ?_, ?_, ?_⟩
  · intro prompt opts hx
    rw [GenerateImage_of_exchange hx, if_pos hstatus]
  · intro taskID hx
    rw [GetTaskStatus_of_exchange hx, if_pos hstatus]
  · exact occursIn_append_left _ (occursIn_append_left _
      (occursIn_append_right _ (occursIn_refl _)))
  · exact occursIn_append_right _ (occursIn_refl _)

/-- C7 at status 404 with a body that decodes to a successful submission and to a
completed query. -/
theorem C7_non_200_is_api_error_witness :
    GenerateImage (cannedRuntime 404 "not found"
        (.ok [{ PromptID := "abc123", Number := 1, NodeErrors := [] }])
        (.ok [{ URLs := ["http://x/img.png"], Count := 1 }])) sampleClient "a cat" [] =
      .error "API error (status 404): not found" ∧
    GetTaskStatus (cannedRuntime 404 "not found"
        (.ok [{ PromptID := "abc123", Number := 1, NodeErrors := [] }])
        (.ok [{ URLs := ["http://x/img.png"], Count := 1 }])) sampleClient "abc123" =
      .error "API error (status 404): not found" := by
  have h := C7_non_200_is_api_error
    (cannedRuntime 404 "not found"
        (.ok [{ PromptID := "abc123", Number := 1, NodeErrors := [] }])
        (.ok [{ URLs := ["http://x/img.png"], Count := 1 }])) sampleClient 404 "not found"
    (by decide)
  exact ⟨h.1 "a cat" [] (cannedRuntime_exchange _ _ _ _ _ _),
    h.2.1 "abc123" (cannedRuntime_exchange _ _ _ _ _ _)⟩

/-- C8: when the body of an HTTP-200 response does not decode (`json.Unmarshal` returns
an error `err`), `GenerateImage` and `GetTaskStatus` return no result and the error
`parse response: <err>`; in particular `GetTaskStatus` returns no `processing` result. -/
theorem C8_undecodable_is_parse_error {V : Type} (rt : Runtime V) (c : HuixingImageClient)
    (body : String) :
    (∀ prompt opts err,
      Exchange rt c (GenerateImage.requestURL rt c prompt opts) 200 body →
      rt.UnmarshalGenerate body = .error err →
      GenerateImage rt c prompt opts = .error ("parse response: " ++ err)) ∧
    (∀ taskID err,
      Exchange rt c (GetTaskStatus.requestURL rt c taskID) 200 body →
      rt.UnmarshalQuery body = .error err →
      GetTaskStatus rt c taskID = .error ("parse response: " ++ err) ∧
      ∀ r, GetTaskStatus rt c taskID ≠ .ok r) := by
  refine ⟨?_, ?_⟩
  · intro prompt opts err hx hdec
    rw [GenerateImage_of_exchange hx]
    simp [hdec]
  · intro taskID err hx hdec
    rw [GetTaskStatus_of_exchange hx]
    simp [hdec]

/-- C8 at a body on which both decoders fail with `invalid character`. -/
theorem C8_undecodable_is_parse_error_witness :
    GenerateImage (cannedRuntime 200 "<html>" (.error "invalid character")
        (.error "invalid character")) sampleClient "a cat" [] =
      .error "parse response: invalid character" ∧
    GetTaskStatus (cannedRuntime 200 "<html>" (.error "invalid character")
        (.error "invalid character")) sampleClient "abc123" =
      .error "parse response: invalid character" := by
  have h := C8_undecodable_is_parse_error
    (cannedRuntime 200 "<html>" (.error "invalid character") (.error "invalid character"))
    sampleClient "<html>"
  exact ⟨h.1 "a cat" [] "invalid character" (cannedRuntime_exchange _ _ _ _ _ _) rfl,
    (h.2 "abc123" "invalid character" (cannedRuntime_exchange _ _ _ _ _ _) rfl).1⟩

/-! ## Request construction -/

/-- C9: the query parameters `GenerateImage` builds are exactly `prompt` = the prompt,
`width` = the decimal of W, `high` = the decimal of H, `size` = `1` and `port` = the
client's port, where (W, H) results from applying the overrides left to right to the
defaults (720, 1080); the request is created for the generate endpoint followed by `?`
and the encoding of these parameters; with no overrides the parameters are `width=720`,
`high=1080`, `size=1`; and an override given last is applied last, so of two overrides
that set the width the later one wins. -/
theorem C9_submission_params (c : HuixingImageClient) (prompt : String)
    (opts : List ImageOption) :
    GenerateImage.options opts =
      opts.foldl (fun o opt => opt o) { Width := 720, Height := 1080 } ∧
    GenerateImage.params c prompt opts =
      [("prompt", [prompt]),
       ("width", [Itoa (GenerateImage.options opts).Width]),
       ("high", [Itoa (GenerateImage.options opts).Height]),
       ("size", ["1"]),
       ("port", [c.Port])] ∧
    (∀ {V : Type} (rt : Runtime V) (err : String),
      rt.NewRequest "GET" (c.GenerateEndpoint ++ "?" ++ rt.Encode
        [("prompt", [prompt]),
         ("width", [Itoa (GenerateImage.options opts).Width]),
         ("high", [Itoa (GenerateImage.options opts).Height]),
         ("size", ["1"]),
         ("port", [c.Port])]) = .error err →
      GenerateImage rt c prompt opts = .error ("create request: " ++ err)) ∧
    GenerateImage.params c prompt [] =
      [("prompt", [prompt]), ("width", ["720"]), ("high", ["1080"]), ("size", ["1"]),
       ("port", [c.Port])] ∧
    (∀ opt : ImageOption,
      GenerateImage.options (opts ++ [opt]) = opt (GenerateImage.options opts)) ∧
    (∀ w1 w2 : Int,
      GenerateImage.params c prompt
          (opts ++ [fun o => { o with Width := w1 }, fun o => { o with Width := w2 }]) =
        [("prompt", [prompt]),
         ("width", [Itoa w2]),
         ("high", [Itoa (GenerateImage.options opts).Height]),
         ("size", ["1"]),
         ("port", [c.Port])]) := by
  have hparams : ∀ opts2 : List ImageOption, GenerateImage.params c prompt opts2 =
      [("prompt", [prompt]),
       ("width", [Itoa (GenerateImage.options opts2).Width]),
       ("high", [Itoa (GenerateImage.options opts2).Height]),
       ("size", ["1"]),
       ("port", [c.Port])] := by
    intro opts2
    simp [GenerateImage.params, Values.Add]
  refine ⟨rfl, hparams opts, ?_, ?_, ?_, ?_⟩
  · intro V rt err herr
    have hurl : GenerateImage.requestURL rt c prompt opts = c.GenerateEndpoint ++ "?" ++
        rt.Encode [("prompt", [prompt]),
         ("width", [Itoa (GenerateImage.options opts).Width]),
         ("high", [Itoa (GenerateImage.options opts).Height]),
         ("size", ["1"]),
         ("port", [c.Port])] := by
      rw [GenerateImage.requestURL, hparams opts]
    unfold GenerateImage
    simp only [hurl, herr]
  · rw [hparams []]
    rfl
  · intro opt
    simp [GenerateImage.options, List.foldl_append]
  · intro w1 w2
    rw [hparams]
    simp [GenerateImage.options, List.foldl_append]

/-- C9 at the overrides width 512, height 768, width 1024, in this order. -/
theorem C9_submission_params_witness :
    GenerateImage.params sampleClient "a cat"
        [fun o => { o with Width := 512 }, fun o => { o with Height := 768 },
         fun o => { o with Width := 1024 }] =
      [("prompt", ["a cat"]), ("width", ["1024"]), ("high", ["768"]), ("size", ["1"]),
       ("port", ["8188"])] :=
  (C9_submission_params sampleClient "a cat"
    [fun o => { o with Width := 512 }, fun o => { o with Height := 768 },
     fun o => { o with Width := 1024 }]).2.1.trans (by decide)

/-! ## Construction -/

/-- C10: `NewHuixingImageClient` returns a client whose `GenerateEndpoint` and
`QueryEndpoint` are the given strings, whose `Port` is `"8188"` when the given port is
empty and the given port otherwise, hence never empty, and whose HTTP timeout is five
minutes (300 000 000 000 nanoseconds). -/
theorem C10_constructor (generateEndpoint queryEndpoint port : String) :
    (NewHuixingImageClient generateEndpoint queryEndpoint port).GenerateEndpoint =
      generateEndpoint ∧
    (NewHuixingImageClient generateEndpoint queryEndpoint port).QueryEndpoint =
      queryEndpoint ∧
    (NewHuixingImageClient generateEndpoint queryEndpoint port).Port =
      (if port = "" then "8188" else port) ∧
    (NewHuixingImageClient generateEndpoint queryEndpoint port).Port ≠ "" ∧
    (NewHuixingImageClient generateEndpoint queryEndpoint port).HTTPClient.Timeout =
      5 * Minute ∧
    (5 * Minute : Int) = 300000000000 := by
  refine ⟨rfl, rfl, rfl, ?_, rfl, by decide⟩
  show (if port = "" then "8188" else port) ≠ ""
  split
  · decide
  · assumption

end image
